import Mathlib

-- Shallow embedding of the vkrs Vulkan application (src/vkrs): queue-family
-- discovery, physical-device rating and selection, swapchain configuration,
-- image-view/framebuffer construction, sync-object creation, and the
-- per-frame orchestration loop, together with theorems about them.

namespace Vkrs

-- Queue family discovery, from src/vkrs/queue_family_indices.rs.

structure QueueFamily where
  graphics : Bool
  present_support : Bool
  deriving DecidableEq, Repr

structure QueueFamilyIndices where
  graphics_family : Option Nat
  present_family : Option Nat
  deriving DecidableEq, Repr

def QueueFamilyIndices.new : QueueFamilyIndices :=
  { graphics_family := none, present_family := none }

def QueueFamilyIndices.is_complete (i : QueueFamilyIndices) : Bool :=
  i.graphics_family.isSome && i.present_family.isSome

-- The loop body of QueueFamilyIndices::find_queue_families: graphics_family is
-- overwritten by every graphics-capable family, present_family only by the
-- first family with presentation support, and the loop stops early once both
-- are set.
def find_queue_families_loop : List QueueFamily → Nat → QueueFamilyIndices → QueueFamilyIndices
  | [], _, indices => indices
  | qf :: rest, index, indices =>
    let indices :=
      if qf.graphics then { indices with graphics_family := some index } else indices
    let indices :=
      if qf.present_support && indices.present_family.isNone then
        { indices with present_family := some index }
      else indices
    if indices.is_complete then indices
    else find_queue_families_loop rest (index + 1) indices

def find_queue_families (queue_families : List QueueFamily) : QueueFamilyIndices :=
  find_queue_families_loop queue_families 0 QueueFamilyIndices.new

-- Vulkan enums, restricted to the constructors the program distinguishes.

inductive PhysicalDeviceType
  | discreteGpu
  | integratedGpu
  | virtualGpu
  | cpu
  | otherType
  deriving DecidableEq, Repr

inductive VkFormat
  | b8g8r8a8Srgb
  | otherFormat (code : Nat)
  deriving DecidableEq, Repr

inductive ColorSpace
  | srgbNonlinear
  | otherColorSpace (code : Nat)
  deriving DecidableEq, Repr

structure SurfaceFormat where
  format : VkFormat
  color_space : ColorSpace
  deriving DecidableEq, Repr

inductive PresentMode
  | immediate
  | mailbox
  | fifo
  | otherMode (code : Nat)
  deriving DecidableEq, Repr

structure Extent2D where
  width : Nat
  height : Nat
  deriving DecidableEq, Repr

structure SurfaceCapabilities where
  min_image_count : Nat
  max_image_count : Nat
  current_extent : Extent2D
  min_image_extent : Extent2D
  max_image_extent : Extent2D
  deriving DecidableEq, Repr

structure PhysicalSize where
  width : Nat
  height : Nat
  deriving DecidableEq, Repr

-- A physical device as the selection code observes it: the feature flag it
-- queries, its queue families, its device-extension names, the surface
-- formats/present modes reported for it, and the properties used for scoring.
structure PhysicalDevice where
  geometry_shader : Nat
  queue_families : List QueueFamily
  extension_names : List String
  formats : List SurfaceFormat
  present_modes : List PresentMode
  device_type : PhysicalDeviceType
  max_image_dimension2_d : Nat
  deriving DecidableEq, Repr

-- From src/vkrs/extensions.rs.

def get_required_device_extensions : List String := ["VK_KHR_swapchain"]

def check_device_extension_support (device : PhysicalDevice) : Bool :=
  get_required_device_extensions.all (fun req => device.extension_names.contains req)

-- u32 arithmetic wraps modulo 2^32.
def U32_MOD : Nat := 4294967296

-- From src/vkrs/vulkan.rs, rate_physical_device: reject (score 0, no indices)
-- unless the geometry-shader feature is 1, the queue family indices are
-- complete, the required device extensions are supported, and at least one
-- surface format and present mode exist; otherwise score = device-class bonus
-- (1000 discrete, 100 integrated, else 0) + maxImageDimension2D.
def rate_physical_device (device : PhysicalDevice) : Nat × Option QueueFamilyIndices :=
  if device.geometry_shader ≠ 1 then (0, none)
  else
    let indices := find_queue_families device.queue_families
    if indices.is_complete = false then (0, none)
    else if check_device_extension_support device = false then (0, none)
    else if device.formats.isEmpty || device.present_modes.isEmpty then (0, none)
    else
      let class_bonus : Nat :=
        if device.device_type = PhysicalDeviceType.discreteGpu then 1000
        else if device.device_type = PhysicalDeviceType.integratedGpu then 100
        else 0
      ((class_bonus + device.max_image_dimension2_d) % U32_MOD, some indices)

def device_score (device : PhysicalDevice) : Nat := (rate_physical_device device).1

structure SelectState where
  best_device_idx : Nat
  max_score : Nat
  queue_family_indices : QueueFamilyIndices
  deriving DecidableEq, Repr

-- The selection loop of select_physical_device: a strict-improvement argmax
-- over the enumeration, keeping the first device attaining the running max.
def select_loop : List PhysicalDevice → Nat → SelectState → SelectState
  | [], _, st => st
  | device :: rest, idx, st =>
    match rate_physical_device device with
    | (score, some indices) =>
      if st.max_score < score then
        select_loop rest (idx + 1)
          { best_device_idx := idx, max_score := score, queue_family_indices := indices }
      else select_loop rest (idx + 1) st
    | (_, none) => select_loop rest (idx + 1) st

-- select_physical_device returns the index of the chosen device together with
-- its queue family indices; none models the "Failed to find a suitable
-- device" fatal error.
def select_physical_device (devices : List PhysicalDevice) : Option (Nat × QueueFamilyIndices) :=
  let st := select_loop devices 0
    { best_device_idx := 0, max_score := 0, queue_family_indices := QueueFamilyIndices.new }
  if 0 < st.max_score ∧ st.queue_family_indices.is_complete = true then
    some (st.best_device_idx, st.queue_family_indices)
  else none

-- The maximum rate over an enumeration (0 for the empty list).
def max_rate : List PhysicalDevice → Nat
  | [] => 0
  | device :: rest => max (device_score device) (max_rate rest)

-- Swapchain configuration, from src/vkrs/swapchain.rs.

structure SupportDetails where
  capabilities : SurfaceCapabilities
  formats : List SurfaceFormat
  present_modes : List PresentMode
  deriving DecidableEq, Repr

structure SwapchainProperties where
  surface_format : SurfaceFormat
  present_mode : PresentMode
  extent : Extent2D
  deriving DecidableEq, Repr

def U32_MAX : Nat := 4294967295

-- Prefer B8G8R8A8_SRGB with SRGB_NONLINEAR, else the first available format;
-- indexing an empty format list panics in the source, modelled as none.
def choose_swapchain_surface_format (available_formats : List SurfaceFormat) :
    Option SurfaceFormat :=
  match available_formats.find? (fun f =>
      f.format == VkFormat.b8g8r8a8Srgb && f.color_space == ColorSpace.srgbNonlinear) with
  | some f => some f
  | none => available_formats.get? 0

def choose_swapchain_present_mode (available_present_modes : List PresentMode) : PresentMode :=
  if available_present_modes.contains PresentMode.mailbox then PresentMode.mailbox
  else PresentMode.fifo

-- Rust's u32::clamp(lo, hi): asserts lo ≤ hi (none models the panic), else
-- min(max(x, lo), hi).
def u32_clamp (x lo hi : Nat) : Option Nat :=
  if lo ≤ hi then some (min (max x lo) hi) else none

def choose_swapchain_extent (capabilities : SurfaceCapabilities)
    (window_size : PhysicalSize) : Option Extent2D :=
  if capabilities.current_extent.width ≠ U32_MAX then some capabilities.current_extent
  else
    match u32_clamp window_size.width capabilities.min_image_extent.width
            capabilities.max_image_extent.width,
          u32_clamp window_size.height capabilities.min_image_extent.height
            capabilities.max_image_extent.height with
    | some width, some height => some { width, height }
    | _, _ => none

def get_ideal_swapchain_properties (support : SupportDetails)
    (window_size : PhysicalSize) : Option SwapchainProperties := do
  let surface_format ← choose_swapchain_surface_format support.formats
  let present_mode := choose_swapchain_present_mode support.present_modes
  let extent ← choose_swapchain_extent support.capabilities window_size
  pure { surface_format, present_mode, extent }

-- Requested image count: min + 1, clamped to the maximum when it is bounded
-- (a maximum of 0 means unlimited).
def swapchain_image_count (capabilities : SurfaceCapabilities) : Nat :=
  let preferred_num_images := capabilities.min_image_count + 1
  let max_num_images := capabilities.max_image_count
  if max_num_images ≠ 0 ∧ max_num_images < preferred_num_images then max_num_images
  else preferred_num_images

-- Image views and framebuffers; handles are abstracted as the create-info
-- contents that the program fixes.

inductive ImageViewType
  | type2d
  deriving DecidableEq, Repr

structure ImageViewDesc where
  image : Nat
  view_type : ImageViewType
  format : VkFormat
  base_mip_level : Nat
  level_count : Nat
  base_array_layer : Nat
  layer_count : Nat
  deriving DecidableEq, Repr

-- create_image_views builds one 2D, single-mip, single-layer view per image.
def create_image_views (swapchain_images : List Nat)
    (swapchain_image_format : VkFormat) : List ImageViewDesc :=
  swapchain_images.map (fun image =>
    { image, view_type := ImageViewType.type2d, format := swapchain_image_format,
      base_mip_level := 0, level_count := 1, base_array_layer := 0, layer_count := 1 })

structure RenderPassDesc where
  color_format : VkFormat
  deriving DecidableEq, Repr

def create_render_pass (swapchain_image_format : VkFormat) : RenderPassDesc :=
  { color_format := swapchain_image_format }

structure FramebufferDesc where
  render_pass : RenderPassDesc
  attachments : List ImageViewDesc
  width : Nat
  height : Nat
  layers : Nat
  deriving DecidableEq, Repr

-- create_framebuffers builds one framebuffer per image view.
def create_framebuffers (swapchain_image_views : List ImageViewDesc)
    (render_pass : RenderPassDesc) (swapchain_extent : Extent2D) : List FramebufferDesc :=
  swapchain_image_views.map (fun view =>
    { render_pass, attachments := [view], width := swapchain_extent.width,
      height := swapchain_extent.height, layers := 1 })

-- The surface/driver environment observed during swapchain (re)creation:
-- the capability/format/present-mode reports plus the image handles the
-- driver returns for the created swapchain.
structure SurfaceEnv where
  capabilities : SurfaceCapabilities
  formats : List SurfaceFormat
  present_modes : List PresentMode
  images : List Nat
  deriving DecidableEq, Repr

def support_details_of (env : SurfaceEnv) : SupportDetails :=
  { capabilities := env.capabilities, formats := env.formats,
    present_modes := env.present_modes }

structure SwapchainComponent where
  format : VkFormat
  extent : Extent2D
  present_mode : PresentMode
  images : List Nat
  image_views : List ImageViewDesc
  render_pass : RenderPassDesc
  framebuffers : List FramebufferDesc
  uniform_buffer_count : Nat
  descriptor_set_count : Nat
  deriving DecidableEq, Repr

-- The swapchain-dependent resources as built both by App::new and by
-- App::recreate_swapchain: create_swapchain_and_images, create_image_views,
-- create_render_pass, create_framebuffers, create_uniform_buffers and
-- create_descriptor_sets (one uniform buffer and descriptor set per image).
def build_swapchain_component (env : SurfaceEnv)
    (window_size : PhysicalSize) : Option SwapchainComponent := do
  let props ← get_ideal_swapchain_properties (support_details_of env) window_size
  let images := env.images
  let image_views := create_image_views images props.surface_format.format
  let render_pass := create_render_pass props.surface_format.format
  let framebuffers := create_framebuffers image_views render_pass props.extent
  pure { format := props.surface_format.format, extent := props.extent,
         present_mode := props.present_mode, images, image_views, render_pass, framebuffers,
         uniform_buffer_count := images.length, descriptor_set_count := images.length }

-- Frame orchestration, from src/vkrs/app.rs.

def MAX_FRAMES_IN_FLIGHT : Nat := 2

-- The observable state of an in-flight fence: signaled; unsignaled but with
-- submitted GPU work that will signal it (a wait completes); or reset with no
-- pending work (a wait can never return).
inductive FenceStatus
  | signaled
  | pendingGpu
  | reset
  deriving DecidableEq, Repr

structure AppState where
  fences : List FenceStatus
  current_frame : Nat
  deriving DecidableEq, Repr

inductive RecreateSwapchain
  | no
  | yes
  deriving DecidableEq, Repr

-- The result of swapchain.acquire_next_image as draw_frame distinguishes it.
inductive AcquireResult
  | success (image_index : Nat) (suboptimal : Bool)
  | errOutOfDate
  | errOther
  deriving DecidableEq, Repr

-- The result of swapchain.queue_present: Ok(false), Ok(true) (suboptimal),
-- ERROR_OUT_OF_DATE_KHR, or any other error.
inductive PresentResult
  | okNormal
  | okSuboptimal
  | errOutOfDate
  | errOther
  deriving DecidableEq, Repr

-- What one draw_frame iteration did: which slot fence it waited on, which
-- slot fence it reset (if any), and whether it submitted and presented.
structure FrameTrace where
  waited_slot : Nat
  reset_slot : Option Nat
  submitted : Bool
  presented : Bool
  deriving DecidableEq, Repr

inductive DrawOutcome
  | ok (state : AppState) (recreate : RecreateSwapchain) (trace : FrameTrace)
  | panicked
  | blocked
  deriving DecidableEq, Repr

-- App::draw_frame: wait on the current slot fence; acquire (out-of-date
-- returns early with RecreateSwapchain::Yes, other errors panic); update the
-- uniform buffer; reset the fence; re-record and submit the slot command
-- buffer with the fence to be signaled on completion; present (Ok(true) or
-- out-of-date return Yes before the frame index advances, other errors
-- panic); advance current_frame modulo MAX_FRAMES_IN_FLIGHT.
def draw_frame (s : AppState) (acquire : AcquireResult) (present : PresentResult) :
    DrawOutcome :=
  match s.fences.get? s.current_frame with
  | none => DrawOutcome.panicked
  | some FenceStatus.reset => DrawOutcome.blocked
  | some _ =>
    let s := { s with fences := s.fences.set s.current_frame FenceStatus.signaled }
    match acquire with
    | AcquireResult.errOutOfDate =>
      DrawOutcome.ok s RecreateSwapchain.yes
        { waited_slot := s.current_frame, reset_slot := none,
          submitted := false, presented := false }
    | AcquireResult.errOther => DrawOutcome.panicked
    | AcquireResult.success _image_index _suboptimal =>
      let s := { s with fences := s.fences.set s.current_frame FenceStatus.reset }
      let s := { s with fences := s.fences.set s.current_frame FenceStatus.pendingGpu }
      let trace : FrameTrace :=
        { waited_slot := s.current_frame, reset_slot := some s.current_frame,
          submitted := true, presented := true }
      match present with
      | PresentResult.okSuboptimal => DrawOutcome.ok s RecreateSwapchain.yes trace
      | PresentResult.errOutOfDate => DrawOutcome.ok s RecreateSwapchain.yes trace
      | PresentResult.errOther => DrawOutcome.panicked
      | PresentResult.okNormal =>
        DrawOutcome.ok
          { s with current_frame := (s.current_frame + 1) % MAX_FRAMES_IN_FLIGHT }
          RecreateSwapchain.no trace

-- Sync objects, from create_sync_objects in src/vkrs/vulkan.rs.

structure FenceDesc where
  flags_signaled : Bool
  deriving DecidableEq, Repr

-- The creation loop pushes one image-available semaphore, one render-finished
-- semaphore and one fence (created with FenceCreateFlags::SIGNALED) per
-- iteration.
def create_sync_objects_loop :
    Nat → List Unit × List Unit × List FenceDesc → List Unit × List Unit × List FenceDesc
  | 0, acc => acc
  | n + 1, (image_available, render_finished, fences) =>
    create_sync_objects_loop n
      (image_available ++ [()], render_finished ++ [()], fences ++ [{ flags_signaled := true }])

def create_sync_objects (max_frames_in_flight : Nat) :
    List Unit × List Unit × List FenceDesc :=
  create_sync_objects_loop max_frames_in_flight ([], [], [])

-- The frame state App::new starts with: the fences from create_sync_objects
-- (signaled at creation) and current_frame = 0.
def initial_frame_state : AppState :=
  { fences := (create_sync_objects MAX_FRAMES_IN_FLIGHT).2.2.map
      (fun f => if f.flags_signaled then FenceStatus.signaled else FenceStatus.reset),
    current_frame := 0 }

-- The application model for the event loop: the frame-orchestration state
-- plus the swapchain-dependent resources.
structure AppModel where
  frame : AppState
  chain : SwapchainComponent
  deriving DecidableEq, Repr

-- App::recreate_swapchain: wait for device idle, destroy the old
-- swapchain-dependent resources, and rebuild them from fresh surface reports
-- and the given window size; the frame slots are untouched.
def recreate_swapchain (app : AppModel) (env : SurfaceEnv)
    (window_size : PhysicalSize) : Option AppModel := do
  let chain ← build_swapchain_component env window_size
  pure { app with chain }

-- The winit events App::run distinguishes.
inductive AppEvent
  | mainEventsCleared
  | closeRequested
  | resized (size : PhysicalSize)
  | loopDestroyed
  | otherEvent
  deriving DecidableEq, Repr

structure RunState where
  recreate_flag : RecreateSwapchain
  app : AppModel
  deriving DecidableEq, Repr

structure RunTrace where
  recreated : Bool
  drew : Bool
  deriving DecidableEq, Repr

-- One step of the App::run event-loop closure. MainEventsCleared: when the
-- recreate flag is set, return early if the window's inner size has a zero
-- dimension, otherwise recreate; then draw a frame and store its recreate
-- signal. Resized: recreate with the event's size, unconditionally.
-- none models a panic inside recreation or drawing (or a wait that can never
-- return).
def run_step (st : RunState) (env : SurfaceEnv) (inner_size : PhysicalSize)
    (event : AppEvent) (acquire : AcquireResult) (present : PresentResult) :
    Option (RunState × RunTrace) :=
  match event with
  | AppEvent.mainEventsCleared =>
    if st.recreate_flag = RecreateSwapchain.yes ∧
        (inner_size.width = 0 ∨ inner_size.height = 0) then
      some (st, { recreated := false, drew := false })
    else
      let app? : Option AppModel :=
        if st.recreate_flag = RecreateSwapchain.yes then
          recreate_swapchain st.app env inner_size
        else some st.app
      match app? with
      | none => none
      | some app =>
        match draw_frame app.frame acquire present with
        | DrawOutcome.ok frame recreate _trace =>
          some ({ recreate_flag := recreate, app := { app with frame } },
                { recreated := st.recreate_flag = RecreateSwapchain.yes, drew := true })
        | _ => none
  | AppEvent.resized size =>
    match recreate_swapchain st.app env size with
    | some app => some ({ st with app }, { recreated := true, drew := false })
    | none => none
  | AppEvent.closeRequested => some (st, { recreated := false, drew := false })
  | AppEvent.loopDestroyed => some (st, { recreated := false, drew := false })
  | AppEvent.otherEvent => some (st, { recreated := false, drew := false })

-- Concrete instances used by scenario theorems and witnesses.

-- The integrated GPU of the spec's two-device scenario: suitable, class
-- bonus 100, capability metric 4096.
def integratedDevice : PhysicalDevice :=
  { geometry_shader := 1,
    queue_families := [{ graphics := true, present_support := true }],
    extension_names := ["VK_KHR_swapchain"],
    formats := [{ format := VkFormat.b8g8r8a8Srgb, color_space := ColorSpace.srgbNonlinear }],
    present_modes := [PresentMode.fifo],
    device_type := PhysicalDeviceType.integratedGpu,
    max_image_dimension2_d := 4096 }

-- The discrete GPU of the scenario: class bonus 1000, capability metric 2048.
def discreteDevice : PhysicalDevice :=
  { integratedDevice with
    device_type := PhysicalDeviceType.discreteGpu,
    max_image_dimension2_d := 2048 }

-- A device identical to integratedDevice except that it lacks the
-- geometry-shader feature.
def noGeometryDevice : PhysicalDevice :=
  { integratedDevice with geometry_shader := 0 }

-- A concrete surface environment: defined current extent 800x600, three
-- swapchain images.
def sampleEnv : SurfaceEnv :=
  { capabilities :=
      { min_image_count := 2, max_image_count := 0,
        current_extent := { width := 800, height := 600 },
        min_image_extent := { width := 1, height := 1 },
        max_image_extent := { width := 4096, height := 4096 } },
    formats := [{ format := VkFormat.b8g8r8a8Srgb, color_space := ColorSpace.srgbNonlinear }],
    present_modes := [PresentMode.fifo],
    images := [10, 11, 12] }

def sampleChain : SwapchainComponent :=
  { format := VkFormat.b8g8r8a8Srgb,
    extent := { width := 800, height := 600 },
    present_mode := PresentMode.fifo,
    images := [10, 11, 12],
    image_views := create_image_views [10, 11, 12] VkFormat.b8g8r8a8Srgb,
    render_pass := create_render_pass VkFormat.b8g8r8a8Srgb,
    framebuffers :=
      create_framebuffers (create_image_views [10, 11, 12] VkFormat.b8g8r8a8Srgb)
        (create_render_pass VkFormat.b8g8r8a8Srgb) { width := 800, height := 600 },
    uniform_buffer_count := 3,
    descriptor_set_count := 3 }

def sampleApp : AppModel :=
  { frame := { fences := [FenceStatus.signaled, FenceStatus.signaled], current_frame := 0 },
    chain := sampleChain }

def sampleRunState : RunState :=
  { recreate_flag := RecreateSwapchain.no, app := sampleApp }

-- Helper lemmas.

-- Setting a list index to the value it already holds leaves the list
-- unchanged.
theorem list_set_of_get_eq {α : Type} (l : List α) (i : Nat) (v : α)
    (h : l.get? i = some v) : l.set i v = l := by
  induction l generalizing i with
  | nil => simp at h
  | cons a t ihl =>
    cases i with
    | zero =>
      simp only [List.get?] at h
      injection h with h
      simp [h]
    | succ n =>
      simp only [List.get?] at h
      simp [ihl n h]

-- rate_physical_device either rejects outright or returns complete queue
-- family indices.
theorem rate_shape (d : PhysicalDevice) :
    rate_physical_device d = (0, none) ∨
    ∃ ind, (rate_physical_device d).2 = some ind ∧ ind.is_complete = true := by
  simp only [rate_physical_device]
  split
  · exact Or.inl rfl
  · split
    · exact Or.inl rfl
    · split
      · exact Or.inl rfl
      · split
        · exact Or.inl rfl
        · rename_i hcomplete _ _
          refine Or.inr ⟨find_queue_families d.queue_families, rfl, ?_⟩
          simpa using hcomplete

-- The score of any enumerated device is bounded by max_rate.
theorem le_max_rate (ds : List PhysicalDevice) (d : PhysicalDevice) (h : d ∈ ds) :
    device_score d ≤ max_rate ds := by
  induction ds with
  | nil => simp at h
  | cons a t iht =>
    rcases List.mem_cons.mp h with rfl | ht
    · simp [max_rate]
    · exact le_trans (iht ht) (by simp [max_rate])

-- The selection loop computes a strict-improvement argmax: the final
-- max_score is the max of the starting score and all device scores; if no
-- device beats the starting score the state is unchanged; otherwise the
-- chosen index is the first device attaining the final maximum, and the
-- recorded queue family indices are that device's.
theorem select_loop_spec (ds : List PhysicalDevice) : ∀ (idx : Nat) (st : SelectState),
    (select_loop ds idx st).max_score = max st.max_score (max_rate ds) ∧
    (max_rate ds ≤ st.max_score → select_loop ds idx st = st) ∧
    (st.max_score < max_rate ds →
      ∃ k, ∃ hk : k < ds.length,
        (select_loop ds idx st).best_device_idx = idx + k ∧
        device_score (ds.get ⟨k, hk⟩) = max_rate ds ∧
        (rate_physical_device (ds.get ⟨k, hk⟩)).2 =
          some (select_loop ds idx st).queue_family_indices ∧
        ∀ j (hj : j < ds.length), j < k → device_score (ds.get ⟨j, hj⟩) < max_rate ds) := by
  induction ds with
  | nil =>
    intro idx st
    refine ⟨by simp [select_loop, max_rate], fun _ => rfl, fun h => absurd h (by simp [max_rate])⟩
  | cons d rest ih =>
    intro idx st
    rcases hr : rate_physical_device d with ⟨score, ind⟩
    have hscore : device_score d = score := by simp [device_score, hr]
    have hmr : max_rate (d :: rest) = max score (max_rate rest) := by
      simp [max_rate, hscore]
    cases ind with
    | none =>
      have hs0 : score = 0 := by
        rcases rate_shape d with h | ⟨i, hi, _⟩
        · rw [hr] at h
          simpa using congrArg Prod.fst h
        · rw [hr] at hi
          simp at hi
      have hstep : select_loop (d :: rest) idx st = select_loop rest (idx + 1) st := by
        simp [select_loop, hr]
      obtain ⟨ih1, ih2, ih3⟩ := ih (idx + 1) st
      have hmr0 : max_rate (d :: rest) = max_rate rest := by
        rw [hmr, hs0]
        exact Nat.max_eq_right (Nat.zero_le _)
      refine ⟨?_, ?_, ?_⟩
      · rw [hstep, ih1, hmr0]
      · intro h
        rw [hstep]
        exact ih2 (hmr0 ▸ h)
      · intro h
        rw [hmr0] at h
        obtain ⟨k, hk, hbest, hsc, hq, hfirst⟩ := ih3 h
        refine ⟨k + 1, by simpa using hk, ?_, ?_, ?_, ?_⟩
        · rw [hstep, hbest]
          omega
        · simpa [hmr0] using hsc
        · rw [hstep]
          simpa using hq
        · intro j hj hjk
          cases j with
          | zero =>
            simp only [List.get]
            rw [hscore, hs0, hmr0]
            exact Nat.lt_of_le_of_lt (Nat.zero_le _) h
          | succ j =>
            have hj2 : j < rest.length := by simpa using hj
            have hlt2 := hfirst j hj2 (by omega)
            simpa [hmr0] using hlt2
    | some ind0 =>
      have hstep : select_loop (d :: rest) idx st =
          if st.max_score < score then
            select_loop rest (idx + 1)
              { best_device_idx := idx, max_score := score, queue_family_indices := ind0 }
          else select_loop rest (idx + 1) st := by
        simp [select_loop, hr]
      by_cases hlt : st.max_score < score
      · rw [if_pos hlt] at hstep
        obtain ⟨ih1, ih2, ih3⟩ :=
          ih (idx + 1) { best_device_idx := idx, max_score := score, queue_family_indices := ind0 }
        have hstmax : st.max_score ≤ max score (max_rate rest) :=
          le_of_lt (lt_of_lt_of_le hlt (Nat.le_max_left _ _))
        refine ⟨?_, ?_, ?_⟩
        · rw [hstep, ih1, hmr]
          exact (Nat.max_eq_right hstmax).symm
        · intro h
          rw [hmr] at h
          exact absurd hlt (Nat.not_lt.mpr (le_trans (Nat.le_max_left _ _) h))
        · intro _h
          rcases Nat.lt_or_ge score (max_rate rest) with hgt | hge
          · have hM : max_rate (d :: rest) = max_rate rest := by
              rw [hmr]
              exact Nat.max_eq_right (le_of_lt hgt)
            obtain ⟨k, hk, hbest, hsc, hq, hfirst⟩ := ih3 hgt
            refine ⟨k + 1, by simpa using hk, ?_, ?_, ?_, ?_⟩
            · rw [hstep, hbest]
              omega
            · simpa [hM] using hsc
            · rw [hstep]
              simpa using hq
            · intro j hj hjk
              cases j with
              | zero =>
                simp only [List.get]
                rw [hscore, hM]
                exact hgt
              | succ j =>
                have hj2 : j < rest.length := by simpa using hj
                have hlt2 := hfirst j hj2 (by omega)
                simpa [hM] using hlt2
          · have hM : max_rate (d :: rest) = score := by
              rw [hmr]
              exact Nat.max_eq_left hge
            have hres : select_loop (d :: rest) idx st =
                { best_device_idx := idx, max_score := score, queue_family_indices := ind0 } := by
              rw [hstep]
              exact ih2 hge
            refine ⟨0, by simp, ?_, ?_, ?_, ?_⟩
            · simp [hres]
            · simp only [List.get]
              rw [hscore, hM]
            · simp [hres, hr]
            · intro j hj hjk
              exact absurd hjk (Nat.not_lt_zero j)
      · rw [if_neg hlt] at hstep
        obtain ⟨ih1, ih2, ih3⟩ := ih (idx + 1) st
        have hsm : score ≤ st.max_score := Nat.not_lt.mp hlt
        refine ⟨?_, ?_, ?_⟩
        · rw [hstep, ih1, hmr, ← Nat.max_assoc, Nat.max_eq_left hsm]
        · intro h
          rw [hmr] at h
          rw [hstep]
          exact ih2 (le_trans (Nat.le_max_right _ _) h)
        · intro h
          have h2 : st.max_score < max_rate rest := by
            rcases Nat.lt_or_ge st.max_score (max_rate rest) with h2 | h2
            · exact h2
            · rw [hmr] at h
              exact absurd h (Nat.not_lt.mpr (Nat.max_le.mpr ⟨hsm, h2⟩))
          have hM : max_rate (d :: rest) = max_rate rest := by
            rw [hmr]
            exact Nat.max_eq_right (le_trans hsm (le_of_lt h2))
          obtain ⟨k, hk, hbest, hsc, hq, hfirst⟩ := ih3 h2
          refine ⟨k + 1, by simpa using hk, ?_, ?_, ?_, ?_⟩
          · rw [hstep, hbest]
            omega
          · simpa [hM] using hsc
          · rw [hstep]
            simpa using hq
          · intro j hj hjk
            cases j with
            | zero =>
              simp only [List.get]
              rw [hscore, hM]
              exact lt_of_le_of_lt hsm h2
            | succ j =>
              have hj2 : j < rest.length := by simpa using hj
              have hlt2 := hfirst j hj2 (by omega)
              simpa [hM] using hlt2

-- Characterization of a successful selection: the returned index is in
-- range, scores strictly positive and maximal, every earlier device scores
-- strictly less, and the returned queue family indices are the device's.
theorem select_spec (devices : List PhysicalDevice) (i : Nat) (qfi : QueueFamilyIndices)
    (h : select_physical_device devices = some (i, qfi)) :
    ∃ hi : i < devices.length,
      device_score (devices.get ⟨i, hi⟩) = max_rate devices ∧
      0 < device_score (devices.get ⟨i, hi⟩) ∧
      (rate_physical_device (devices.get ⟨i, hi⟩)).2 = some qfi ∧
      ∀ j (hj : j < devices.length), j < i →
        device_score (devices.get ⟨j, hj⟩) < device_score (devices.get ⟨i, hi⟩) := by
  simp only [select_physical_device] at h
  split at h
  · rename_i hcond
    obtain ⟨hpos, _hcomp⟩ := hcond
    injection h with h
    obtain ⟨hi', hqfi'⟩ := Prod.mk.injEq .. ▸ h
    obtain ⟨spec1, _spec2, spec3⟩ := select_loop_spec devices 0
      { best_device_idx := 0, max_score := 0, queue_family_indices := QueueFamilyIndices.new }
    have hmax : (select_loop devices 0
        { best_device_idx := 0, max_score := 0,
          queue_family_indices := QueueFamilyIndices.new }).max_score = max_rate devices := by
      rw [spec1]
      exact Nat.max_eq_right (Nat.zero_le _)
    have hMpos : 0 < max_rate devices := by
      rw [← hmax]
      exact hpos
    obtain ⟨k, hk, hbest, hsc, hq, hfirst⟩ := spec3 hMpos
    have hik : i = k := by
      rw [← hi', hbest]
      omega
    subst hik
    refine ⟨hk, hsc, ?_, ?_, ?_⟩
    · rw [hsc]
      exact hMpos
    · rw [hq, hqfi']
    · intro j hj hji
      rw [hsc]
      exact hfirst j hj hji
  · exact absurd h (by simp)

-- A device enumeration with a positively scoring device yields a successful
-- selection.
theorem select_some_of_exists (devices : List PhysicalDevice)
    (h : ∃ d ∈ devices, 0 < device_score d) :
    ∃ i qfi, select_physical_device devices = some (i, qfi) := by
  obtain ⟨d, hd, hds⟩ := h
  have hMpos : 0 < max_rate devices := Nat.lt_of_lt_of_le hds (le_max_rate devices d hd)
  obtain ⟨spec1, _spec2, spec3⟩ := select_loop_spec devices 0
    { best_device_idx := 0, max_score := 0, queue_family_indices := QueueFamilyIndices.new }
  have hmax : (select_loop devices 0
      { best_device_idx := 0, max_score := 0,
        queue_family_indices := QueueFamilyIndices.new }).max_score = max_rate devices := by
    rw [spec1]
    exact Nat.max_eq_right (Nat.zero_le _)
  obtain ⟨k, hk, _hbest, _hsc, hq, _hfirst⟩ := spec3 hMpos
  have hcomp : (select_loop devices 0
      { best_device_idx := 0, max_score := 0,
        queue_family_indices := QueueFamilyIndices.new }).queue_family_indices.is_complete
      = true := by
    rcases rate_shape (devices.get ⟨k, hk⟩) with hzero | ⟨ind, hind, hindc⟩
    · rw [hzero] at hq
      simp at hq
    · rw [hind] at hq
      injection hq with hq
      rw [← hq]
      exact hindc
  refine ⟨(select_loop devices 0
      { best_device_idx := 0, max_score := 0,
        queue_family_indices := QueueFamilyIndices.new }).best_device_idx,
    (select_loop devices 0
      { best_device_idx := 0, max_score := 0,
        queue_family_indices := QueueFamilyIndices.new }).queue_family_indices, ?_⟩
  simp only [select_physical_device]
  rw [if_pos ⟨by rw [hmax]; exact hMpos, hcomp⟩]

/-- C2: for every enumeration of physical devices containing at least one
device that meets the minimum requirements (rates strictly above zero), the
selector returns an index of a device with strictly positive score, that
score is the maximum over the enumeration, and every earlier device scores
strictly less (ties are resolved to the first maximum in enumeration
order). -/
theorem select_physical_device_picks_first_max (devices : List PhysicalDevice)
    (h : ∃ d ∈ devices, 0 < device_score d) :
    ∃ i qfi, select_physical_device devices = some (i, qfi) ∧
      ∃ hi : i < devices.length,
        0 < device_score (devices.get ⟨i, hi⟩) ∧
        (∀ d ∈ devices, device_score d ≤ device_score (devices.get ⟨i, hi⟩)) ∧
        ∀ j (hj : j < devices.length), j < i →
          device_score (devices.get ⟨j, hj⟩) < device_score (devices.get ⟨i, hi⟩) := by
  obtain ⟨i, qfi, hsel⟩ := select_some_of_exists devices h
  obtain ⟨hi, hmaxeq, hpos, _hq, hfirst⟩ := select_spec devices i qfi hsel
  refine ⟨i, qfi, hsel, hi, hpos, ?_, hfirst⟩
  intro d hd
  rw [hmaxeq]
  exact le_max_rate devices d hd

/-- C2 witness: a concrete two-device enumeration with a positively scoring
device, on which the selector picks the first maximum. -/
theorem select_physical_device_picks_first_max_witness :
    ∃ i qfi, select_physical_device [integratedDevice, discreteDevice] = some (i, qfi) ∧
      ∃ hi : i < ([integratedDevice, discreteDevice] : List PhysicalDevice).length,
        0 < device_score (([integratedDevice, discreteDevice] : List PhysicalDevice).get ⟨i, hi⟩) ∧
        (∀ d ∈ ([integratedDevice, discreteDevice] : List PhysicalDevice),
          device_score d ≤
            device_score (([integratedDevice, discreteDevice] : List PhysicalDevice).get ⟨i, hi⟩)) ∧
        ∀ j (hj : j < ([integratedDevice, discreteDevice] : List PhysicalDevice).length), j < i →
          device_score (([integratedDevice, discreteDevice] : List PhysicalDevice).get ⟨j, hj⟩) <
            device_score (([integratedDevice, discreteDevice] : List PhysicalDevice).get ⟨i, hi⟩) :=
  select_physical_device_picks_first_max [integratedDevice, discreteDevice]
    ⟨integratedDevice, by decide, by decide⟩

/-- C3 counterexample: in the spec's two-device scenario the selector does
NOT pick the discrete device (index 1); it picks the integrated device
(index 0), whose additive score 100 + 4096 = 4196 exceeds the discrete
device's 1000 + 2048 = 3048. -/
theorem select_two_device_scenario_not_discrete :
    (select_physical_device [integratedDevice, discreteDevice]).map Prod.fst = some 0 ∧
    (0 : Nat) ≠ 1 ∧
    device_score integratedDevice = 4196 ∧
    device_score discreteDevice = 3048 := by
  refine ⟨?_, by decide, by decide, by decide⟩
  decide

/-- C3 amended: with the integrated device scoring 100 + 4096 and the
discrete device scoring 1000 + 2048, the selector follows the additive
scoring formula and picks the integrated device, the first and only maximum
(4196 > 3048). -/
theorem select_two_device_scenario_follows_formula :
    device_score integratedDevice = 100 + 4096 ∧
    device_score discreteDevice = 1000 + 2048 ∧
    1000 + 2048 < 100 + 4096 ∧
    select_physical_device [integratedDevice, discreteDevice] =
      some (0, { graphics_family := some 0, present_family := some 0 }) := by
  refine ⟨by decide, by decide, by decide, ?_⟩
  decide

/-- C9: a physical device without the geometry-shader feature is rated
(0, no indices) regardless of its other properties, and the device the
selector returns always has the feature enabled and is therefore never such
a device. -/
theorem no_geometry_shader_never_selected (d : PhysicalDevice)
    (hgs : d.geometry_shader ≠ 1) (devices : List PhysicalDevice) (i : Nat)
    (qfi : QueueFamilyIndices) (hi : i < devices.length)
    (hsel : select_physical_device devices = some (i, qfi)) :
    rate_physical_device d = (0, none) ∧ devices.get ⟨i, hi⟩ ≠ d := by
  have hrate : rate_physical_device d = (0, none) := by
    simp [rate_physical_device, hgs]
  refine ⟨hrate, ?_⟩
  obtain ⟨hi', _hmaxeq, hpos, _hq, _hfirst⟩ := select_spec devices i qfi hsel
  intro heq
  have : device_score (devices.get ⟨i, hi⟩) = 0 := by
    rw [heq]
    simp [device_score, hrate]
  rw [this] at hpos
  exact absurd hpos (by omega)

/-- C9 witness: in the enumeration [noGeometryDevice, integratedDevice] the
selector picks index 1, and the geometry-shader-less device rates (0, none)
and is not the selected device. -/
theorem no_geometry_shader_never_selected_witness :
    rate_physical_device noGeometryDevice = (0, none) ∧
    ([noGeometryDevice, integratedDevice] : List PhysicalDevice).get ⟨1, by decide⟩ ≠
      noGeometryDevice :=
  no_geometry_shader_never_selected noGeometryDevice (by decide)
    [noGeometryDevice, integratedDevice] 1
    { graphics_family := some 0, present_family := some 0 } (by decide) (by decide)

/-- C4: the chosen swapchain extent equals the surface's current extent
whenever its width is not the u32::MAX sentinel; otherwise (with consistent
min/max bounds, as Rust's clamp asserts) it is the window's physical size
clamped componentwise into [minImageExtent, maxImageExtent], and hence lies
within those bounds. -/
theorem choose_swapchain_extent_spec (capabilities : SurfaceCapabilities)
    (window_size : PhysicalSize) :
    (capabilities.current_extent.width ≠ U32_MAX →
      choose_swapchain_extent capabilities window_size = some capabilities.current_extent) ∧
    (capabilities.current_extent.width = U32_MAX →
      capabilities.min_image_extent.width ≤ capabilities.max_image_extent.width →
      capabilities.min_image_extent.height ≤ capabilities.max_image_extent.height →
      ∃ e, choose_swapchain_extent capabilities window_size = some e ∧
        e.width = min (max window_size.width capabilities.min_image_extent.width)
          capabilities.max_image_extent.width ∧
        e.height = min (max window_size.height capabilities.min_image_extent.height)
          capabilities.max_image_extent.height ∧
        capabilities.min_image_extent.width ≤ e.width ∧
        e.width ≤ capabilities.max_image_extent.width ∧
        capabilities.min_image_extent.height ≤ e.height ∧
        e.height ≤ capabilities.max_image_extent.height) := by
  constructor
  · intro h
    simp only [choose_swapchain_extent]
    rw [if_pos h]
  · intro h hw hh
    simp only [choose_swapchain_extent]
    rw [if_neg (by simpa using h)]
    simp only [u32_clamp]
    rw [if_pos hw, if_pos hh]
    refine ⟨_, rfl, rfl, rfl, ?_, Nat.min_le_right _ _, ?_, Nat.min_le_right _ _⟩
    · exact Nat.le_min.mpr ⟨Nat.le_max_right _ _, hw⟩
    · exact Nat.le_min.mpr ⟨Nat.le_max_right _ _, hh⟩

/-- C4 witness: with a defined 800x600 current extent the chosen extent is
that extent; with the sentinel current extent and bounds [100,2000]^2, a
50x3000 window is clamped componentwise to 100x2000, inside the bounds. -/
theorem choose_swapchain_extent_spec_witness :
    choose_swapchain_extent
        { min_image_count := 2, max_image_count := 0,
          current_extent := { width := 800, height := 600 },
          min_image_extent := { width := 1, height := 1 },
          max_image_extent := { width := 4096, height := 4096 } }
        { width := 50, height := 3000 } =
      some { width := 800, height := 600 } ∧
    ∃ e, choose_swapchain_extent
        { min_image_count := 2, max_image_count := 0,
          current_extent := { width := U32_MAX, height := U32_MAX },
          min_image_extent := { width := 100, height := 100 },
          max_image_extent := { width := 2000, height := 2000 } }
        { width := 50, height := 3000 } = some e ∧
      e.width = min (max 50 100) 2000 ∧
      e.height = min (max 3000 100) 2000 ∧
      100 ≤ e.width ∧ e.width ≤ 2000 ∧ 100 ≤ e.height ∧ e.height ≤ 2000 :=
  ⟨(choose_swapchain_extent_spec
      { min_image_count := 2, max_image_count := 0,
        current_extent := { width := 800, height := 600 },
        min_image_extent := { width := 1, height := 1 },
        max_image_extent := { width := 4096, height := 4096 } }
      { width := 50, height := 3000 }).1 (by decide),
   (choose_swapchain_extent_spec
      { min_image_count := 2, max_image_count := 0,
        current_extent := { width := U32_MAX, height := U32_MAX },
        min_image_extent := { width := 100, height := 100 },
        max_image_extent := { width := 2000, height := 2000 } }
      { width := 50, height := 3000 }).2 rfl (by decide) (by decide)⟩

/-- C1: when acquire-next-image reports the surface out of date and the
current slot's fence is signaled, draw_frame aborts the iteration signaling
RecreateSwapchain.yes, with no submit, no present, no fence reset, the
frame-slot index unchanged, and the slot's fence left signaled (the state is
returned unchanged). -/
theorem draw_frame_out_of_date_aborts (s : AppState) (present : PresentResult)
    (hs : s.fences.get? s.current_frame = some FenceStatus.signaled) :
    draw_frame s AcquireResult.errOutOfDate present =
      DrawOutcome.ok s RecreateSwapchain.yes
        { waited_slot := s.current_frame, reset_slot := none,
          submitted := false, presented := false } := by
  have hset := list_set_of_get_eq s.fences s.current_frame FenceStatus.signaled hs
  have hs2 : s.fences[s.current_frame]? = some FenceStatus.signaled := by
    rw [← List.get?_eq_getElem?]
    exact hs
  simp [draw_frame, hs2, hset]

/-- C1 witness: a concrete state with both fences signaled at slot 0. -/
theorem draw_frame_out_of_date_aborts_witness :
    draw_frame { fences := [FenceStatus.signaled, FenceStatus.signaled], current_frame := 0 }
        AcquireResult.errOutOfDate PresentResult.okNormal =
      DrawOutcome.ok
        { fences := [FenceStatus.signaled, FenceStatus.signaled], current_frame := 0 }
        RecreateSwapchain.yes
        { waited_slot := 0, reset_slot := none, submitted := false, presented := false } :=
  draw_frame_out_of_date_aborts
    { fences := [FenceStatus.signaled, FenceStatus.signaled], current_frame := 0 }
    PresentResult.okNormal (by decide)

/-- C7: two successive successful iterations (MAX_FRAMES_IN_FLIGHT = 2)
starting at slot 0: the first waits on and resets exactly slot 0's fence and
advances the index to 1, the second waits on and resets exactly slot 1's
fence and advances the index modulo 2 back to 0. -/
theorem draw_frame_two_frames_cycle (f0 f1 : FenceStatus) (i1 i2 : Nat) (b1 b2 : Bool)
    (h0 : f0 ≠ FenceStatus.reset) (h1 : f1 ≠ FenceStatus.reset) :
    draw_frame { fences := [f0, f1], current_frame := 0 }
        (AcquireResult.success i1 b1) PresentResult.okNormal =
      DrawOutcome.ok { fences := [FenceStatus.pendingGpu, f1], current_frame := 1 }
        RecreateSwapchain.no
        { waited_slot := 0, reset_slot := some 0, submitted := true, presented := true } ∧
    draw_frame { fences := [FenceStatus.pendingGpu, f1], current_frame := 1 }
        (AcquireResult.success i2 b2) PresentResult.okNormal =
      DrawOutcome.ok
        { fences := [FenceStatus.pendingGpu, FenceStatus.pendingGpu], current_frame := 0 }
        RecreateSwapchain.no
        { waited_slot := 1, reset_slot := some 1, submitted := true, presented := true } := by
  cases f0 <;> cases f1 <;>
    first
      | exact absurd rfl h0
      | exact absurd rfl h1
      | exact ⟨rfl, rfl⟩

/-- C7 witness: both fences signaled, concrete image indices. -/
theorem draw_frame_two_frames_cycle_witness :
    draw_frame { fences := [FenceStatus.signaled, FenceStatus.signaled], current_frame := 0 }
        (AcquireResult.success 0 false) PresentResult.okNormal =
      DrawOutcome.ok
        { fences := [FenceStatus.pendingGpu, FenceStatus.signaled], current_frame := 1 }
        RecreateSwapchain.no
        { waited_slot := 0, reset_slot := some 0, submitted := true, presented := true } ∧
    draw_frame
        { fences := [FenceStatus.pendingGpu, FenceStatus.signaled], current_frame := 1 }
        (AcquireResult.success 1 false) PresentResult.okNormal =
      DrawOutcome.ok
        { fences := [FenceStatus.pendingGpu, FenceStatus.pendingGpu], current_frame := 0 }
        RecreateSwapchain.no
        { waited_slot := 1, reset_slot := some 1, submitted := true, presented := true } :=
  draw_frame_two_frames_cycle FenceStatus.signaled FenceStatus.signaled 0 1 false false
    (by decide) (by decide)

-- Each iteration of the sync-object creation loop appends exactly one
-- element to each of the three lists, and every appended fence is signaled.
theorem create_sync_objects_loop_spec (n : Nat) :
    ∀ acc : List Unit × List Unit × List FenceDesc,
      (create_sync_objects_loop n acc).1.length = acc.1.length + n ∧
      (create_sync_objects_loop n acc).2.1.length = acc.2.1.length + n ∧
      (create_sync_objects_loop n acc).2.2.length = acc.2.2.length + n ∧
      ∀ f ∈ (create_sync_objects_loop n acc).2.2, f ∈ acc.2.2 ∨ f.flags_signaled = true := by
  induction n with
  | zero =>
    intro acc
    refine ⟨by simp [create_sync_objects_loop], by simp [create_sync_objects_loop],
      by simp [create_sync_objects_loop], ?_⟩
    intro f hf
    exact Or.inl (by simpa [create_sync_objects_loop] using hf)
  | succ n ihn =>
    intro acc
    obtain ⟨image_available, render_finished, fences⟩ := acc
    obtain ⟨l1, l2, l3, hmem⟩ :=
      ihn (image_available ++ [()], render_finished ++ [()],
           fences ++ [{ flags_signaled := true }])
    have hstep : create_sync_objects_loop (n + 1) (image_available, render_finished, fences) =
        create_sync_objects_loop n
          (image_available ++ [()], render_finished ++ [()],
           fences ++ [{ flags_signaled := true }]) := by
      simp [create_sync_objects_loop]
    rw [hstep]
    refine ⟨by simp at l1 ⊢; omega, by simp at l2 ⊢; omega, by simp at l3 ⊢; omega, ?_⟩
    intro f hf
    rcases hmem f hf with h | h
    · rcases List.mem_append.mp h with h2 | h2
      · exact Or.inl h2
      · simp at h2
        rw [h2]
        exact Or.inr rfl
    · exact Or.inr h

/-- C10: create_sync_objects(n) returns exactly n image-available
semaphores, n render-finished semaphores and n in-flight fences; every
fence is created signaled; and in the initial application frame state built
from them the fence of the starting slot (current_frame = 0) is signaled, so
the very first wait completes without any prior submission. -/
theorem create_sync_objects_counts_and_signaled (max_frames_in_flight : Nat) :
    (create_sync_objects max_frames_in_flight).1.length = max_frames_in_flight ∧
    (create_sync_objects max_frames_in_flight).2.1.length = max_frames_in_flight ∧
    (create_sync_objects max_frames_in_flight).2.2.length = max_frames_in_flight ∧
    (∀ f ∈ (create_sync_objects max_frames_in_flight).2.2, f.flags_signaled = true) ∧
    initial_frame_state.fences.get? initial_frame_state.current_frame =
      some FenceStatus.signaled := by
  obtain ⟨l1, l2, l3, hmem⟩ := create_sync_objects_loop_spec max_frames_in_flight ([], [], [])
  refine ⟨by simpa using l1, by simpa using l2, by simpa using l3, ?_, by decide⟩
  intro f hf
  rcases hmem f hf with h | h
  · simp at h
  · exact h

/-- C6: immediately after building the swapchain-dependent resources (as
both initial creation and recreation do), the image-view count and the
framebuffer count equal the swapchain image count. -/
theorem swapchain_counts_equal (env : SurfaceEnv) (window_size : PhysicalSize)
    (c : SwapchainComponent) (h : build_swapchain_component env window_size = some c) :
    (c.image_views.length = c.images.length ∧ c.framebuffers.length = c.images.length) ∧
    ∀ app app2 : AppModel, recreate_swapchain app env window_size = some app2 →
      app2.chain.image_views.length = app2.chain.images.length ∧
      app2.chain.framebuffers.length = app2.chain.images.length := by
  have hmain : ∀ c2 : SwapchainComponent,
      build_swapchain_component env window_size = some c2 →
      c2.image_views.length = c2.images.length ∧
      c2.framebuffers.length = c2.images.length := by
    intro c2 hc2
    rcases hprops : get_ideal_swapchain_properties (support_details_of env) window_size with
      _ | props
    · rw [build_swapchain_component, hprops] at hc2
      simp at hc2
    · rw [build_swapchain_component, hprops] at hc2
      simp at hc2
      rw [← hc2]
      simp [create_image_views, create_framebuffers]
  refine ⟨hmain c h, ?_⟩
  intro app app2 happ
  rw [recreate_swapchain, h] at happ
  simp at happ
  rw [← happ]
  exact hmain c h

/-- C6 witness: the concrete environment with three images. -/
theorem swapchain_counts_equal_witness :
    ((sampleChain.image_views.length = sampleChain.images.length ∧
      sampleChain.framebuffers.length = sampleChain.images.length) ∧
     ∀ app app2 : AppModel,
       recreate_swapchain app sampleEnv { width := 800, height := 600 } = some app2 →
       app2.chain.image_views.length = app2.chain.images.length ∧
       app2.chain.framebuffers.length = app2.chain.images.length) :=
  swapchain_counts_equal sampleEnv { width := 800, height := 600 } sampleChain (by decide)

/-- C8: recreating the swapchain twice in a row with unchanged surface
reports and window size yields the same chosen surface format, present mode
and extent (only handle identity may differ, which the model does not
track). -/
theorem recreate_swapchain_idempotent (app app1 app2 : AppModel) (env : SurfaceEnv)
    (window_size : PhysicalSize)
    (h1 : recreate_swapchain app env window_size = some app1)
    (h2 : recreate_swapchain app1 env window_size = some app2) :
    app2.chain.format = app1.chain.format ∧
    app2.chain.present_mode = app1.chain.present_mode ∧
    app2.chain.extent = app1.chain.extent := by
  rcases hb : build_swapchain_component env window_size with _ | chain
  · rw [recreate_swapchain, hb] at h1
    simp at h1
  · rw [recreate_swapchain, hb] at h1 h2
    simp at h1 h2
    rw [← h1, ← h2]
    exact ⟨rfl, rfl, rfl⟩

/-- C8 witness: recreating twice from the concrete environment yields the
same application model, in particular the same chosen properties. -/
theorem recreate_swapchain_idempotent_witness :
    sampleApp.chain.format = sampleApp.chain.format ∧
    sampleApp.chain.present_mode = sampleApp.chain.present_mode ∧
    sampleApp.chain.extent = sampleApp.chain.extent :=
  recreate_swapchain_idempotent sampleApp sampleApp sampleApp sampleEnv
    { width := 800, height := 600 } (by decide) (by decide)

/-- C5 counterexample: two event-loop steps taken while the window reports
zero size (0x0) violate the claim: a Resized(0,0) event performs swapchain
recreation, and a MainEventsCleared step with the recreate flag unset draws
a frame. -/
theorem run_step_zero_size_recreates_and_draws :
    (run_step sampleRunState sampleEnv { width := 0, height := 0 }
        (AppEvent.resized { width := 0, height := 0 })
        (AcquireResult.success 0 false) PresentResult.okNormal).map
      (fun r => r.2.recreated) = some true ∧
    (run_step sampleRunState sampleEnv { width := 0, height := 0 }
        AppEvent.mainEventsCleared
        (AcquireResult.success 0 false) PresentResult.okNormal).map
      (fun r => r.2.drew) = some true := by
  exact ⟨by decide, by decide⟩

/-- C5 amended: when the recreate-swapchain flag is set, an events-drained
(MainEventsCleared) step taken while the window reports a zero dimension
performs no recreation and draws no frame, leaving the state (and the set
flag) unchanged so both are deferred until the window reports nonzero
dimensions. -/
theorem run_step_minimized_defers (st : RunState) (env : SurfaceEnv)
    (inner_size : PhysicalSize) (acquire : AcquireResult) (present : PresentResult)
    (hflag : st.recreate_flag = RecreateSwapchain.yes)
    (hzero : inner_size.width = 0 ∨ inner_size.height = 0) :
    run_step st env inner_size AppEvent.mainEventsCleared acquire present =
      some (st, { recreated := false, drew := false }) := by
  simp only [run_step]
  rw [if_pos ⟨hflag, hzero⟩]

/-- C5 amended witness: flag set, window 0x0. -/
theorem run_step_minimized_defers_witness :
    run_step { recreate_flag := RecreateSwapchain.yes, app := sampleApp } sampleEnv
        { width := 0, height := 0 } AppEvent.mainEventsCleared
        (AcquireResult.success 0 false) PresentResult.okNormal =
      some ({ recreate_flag := RecreateSwapchain.yes, app := sampleApp },
            { recreated := false, drew := false }) :=
  run_step_minimized_defers { recreate_flag := RecreateSwapchain.yes, app := sampleApp }
    sampleEnv { width := 0, height := 0 } (AcquireResult.success 0 false)
    PresentResult.okNormal (by decide) (by decide)

end Vkrs
